import Mathlib

/-!
Shallow embedding of `src/files/msedgedriver_manager/main.py` — a
self-healing Edge-driver resolver — together with theorems settling the
specification claims about it.

The Python module performs I/O (WinINet reads, subprocess queries,
filesystem checks).  Each I/O-dependent function is embedded as a pure
Lean function over an explicit environment record whose fields record the
outcomes the OS would supply (whether a file exists, what a subprocess
printed, what the network returned); the control flow of the Python code
is translated faithfully.  Python exceptions are modelled with `Except`:
a `try/except` block becomes a `match` on the `Except` value.
-/

/-- A Python exception, as relevant to this module.  `valueError` is raised
by unpacking a 3-tuple into two targets; `osError` stands for any
OS-level exception (e.g. `tempfile.mkdtemp` failing). -/
inductive PyErr where
  | valueError
  | osError
deriving Repr, DecidableEq

/-- One outcome of a `InternetReadFile` call inside `inet_read`'s loop
(main.py lines 78-85): either the call succeeds and delivers the bytes
placed in the buffer (`chunk`, possibly of length 0 which signals
end-of-stream), or the call itself returns FALSE (`fail`). -/
inductive ReadOutcome where
  | chunk (bytes : List Nat)
  | fail
deriving Repr, DecidableEq

/-- Environment of `inet_read` (main.py lines 15-97): whether
`InternetOpenW` succeeds, whether `InternetOpenUrlW` succeeds, and the
sequence of outcomes successive `InternetReadFile` calls would produce.
An exhausted list is read as end-of-stream (a zero-length chunk). -/
structure InetEnv where
  openOk : Bool
  urlOk : Bool
  reads : List ReadOutcome
deriving Repr, DecidableEq

/-- The accumulation loop of `inet_read` (main.py lines 78-85):
`data` starts empty; each iteration calls `InternetReadFile` — if the call
fails (`break` at line 80) or reads zero bytes (`break` at line 83) the
loop stops and the bytes accumulated so far are kept; otherwise the chunk
is appended and the loop continues. -/
def readLoop : List ReadOutcome → List Nat
  | [] => []
  | ReadOutcome.fail :: _ => []
  | ReadOutcome.chunk [] :: _ => []
  | ReadOutcome.chunk b :: rest => b ++ readLoop rest

/-- `inet_read(url)` (main.py lines 15-97).  Returns `none` when WinINet
initialisation or URL opening fails (lines 52-54, 67-69), otherwise the
bytes accumulated by the read loop — note the loop treats a failing
`InternetReadFile` exactly like end-of-stream, so partial data is
returned as a success (lines 78-88). -/
def inet_read (env : InetEnv) : Option (List Nat) :=
  if !env.openOk then none
  else if !env.urlOk then none
  else some (readLoop env.reads)

/-- `download_file_inet_read(url, save_path)` (main.py lines 99-114).
Returns the success flag together with the content written to
`save_path` (`none` when nothing was written).  `writeRaises` models an
exception while opening/writing the destination file, caught at line 112
and converted to `False`. -/
def download_file_inet_read (env : InetEnv) (writeRaises : Bool) :
    Bool × Option (List Nat) :=
  match inet_read env with
  | none => (false, none)
  | some d => if writeRaises then (false, none) else (true, some d)

theorem readLoop_partial (pre : List (List Nat)) (rest : List ReadOutcome)
    (hne : ∀ b ∈ pre, b ≠ []) :
    readLoop (pre.map ReadOutcome.chunk ++ ReadOutcome.fail :: rest) = pre.flatten := by
  induction pre with
  | nil => simp [readLoop]
  | cons b bs ih =>
      have hb : b ≠ [] := hne b (by simp)
      cases b with
      | nil => exact absurd rfl hb
      | cons x xs =>
          simp only [List.map_cons, List.cons_append, readLoop, List.flatten_cons,
            List.append_eq]
          rw [ih (fun c hc => hne c (by simp [hc]))]

/-- C10: in `inet_read`, a failure of the chunked `InternetReadFile` call
after the handles were opened and some chunks were already read ends the
loop like a normal end-of-stream: the accumulated partial bytes are
returned as a successful result, and `download_file_inet_read` reports
success after writing the truncated content. -/
theorem inet_read_truncation_success (env : InetEnv)
    (pre : List (List Nat)) (rest : List ReadOutcome)
    (hopen : env.openOk = true) (hurl : env.urlOk = true)
    (hreads : env.reads = pre.map ReadOutcome.chunk ++ ReadOutcome.fail :: rest)
    (hne : ∀ b ∈ pre, b ≠ []) :
    inet_read env = some pre.flatten ∧
    download_file_inet_read env false = (true, some pre.flatten) := by
  have h1 : inet_read env = some pre.flatten := by
    simp [inet_read, hopen, hurl, hreads, readLoop_partial pre rest hne]
  exact ⟨h1, by simp [download_file_inet_read, h1]⟩

/-- Witness for C10 at a concrete environment: two chunks are read, then
the read call fails; the concatenation of the two chunks is reported as a
successful download. -/
theorem inet_read_truncation_success_witness :
    inet_read ⟨true, true, [ReadOutcome.chunk [1, 2], ReadOutcome.chunk [3],
      ReadOutcome.fail]⟩ = some [1, 2, 3] ∧
    download_file_inet_read ⟨true, true, [ReadOutcome.chunk [1, 2],
      ReadOutcome.chunk [3], ReadOutcome.fail]⟩ false = (true, some [1, 2, 3]) := by
  have h := inet_read_truncation_success
    ⟨true, true, [ReadOutcome.chunk [1, 2], ReadOutcome.chunk [3], ReadOutcome.fail]⟩
    [[1, 2], [3]] [] rfl rfl (by decide) (by decide)
  simpa using h

/-! ## Transport: the two-strategy full-download chain

`download_file_with_wininet` (main.py lines 164-220) first tries the
platform-native `URLDownloadToFileW` call; on a non-`S_OK` result or an
exception it falls back to `urllib` with browser headers and a
30-second timeout.  It is called from exactly one place in the module:
`get_edge_version`'s remote latest-stable lookup (line 289). -/

/-- A transport primitive invoked during a resolution, in invocation
order: the native `URLDownloadToFileW` call, the `urllib.request.urlopen`
fallback, and the WinINet `inet_read` chunked read. -/
inductive TransportCall where
  | urlDownloadToFile
  | urllibOpen
  | inetRead
deriving Repr, DecidableEq

/-- Environment of `download_file_with_wininet`: whether the native
`URLDownloadToFileW` attempt succeeds (`false` covers both a non-zero
HRESULT, line 192, and an exception, line 194), whether the `urllib`
fallback completes (lines 210-216; `false` covers any exception, caught
at line 218), and — when the `urllib` attempt fails — whether it failed
after opening the destination file, leaving a partially written file
behind (the `with ... open(save_path, 'wb')` at line 212 creates the file
before the body copies into it). -/
structure WininetEnv where
  urlmonOk : Bool
  urllibOk : Bool
  urllibPartialWrite : Bool
deriving Repr, DecidableEq

/-- The request timeout, in seconds, of the `urllib` fallback strategy
(main.py line 212: `urlopen(req, timeout=30)`). -/
def urllibTimeoutSeconds : Nat := 30

/-- `download_file_with_wininet(url, save_path)` (main.py lines 164-220).
Returns `(success, fileWritten, calls)`: the boolean result, whether
`save_path` exists afterwards (possibly with partial content), and the
transport primitives attempted, in order. -/
def download_file_with_wininet (env : WininetEnv) :
    Bool × Bool × List TransportCall :=
  if env.urlmonOk then
    (true, true, [TransportCall.urlDownloadToFile])
  else if env.urllibOk then
    (true, true, [TransportCall.urlDownloadToFile, TransportCall.urllibOpen])
  else
    (false, env.urllibPartialWrite,
      [TransportCall.urlDownloadToFile, TransportCall.urllibOpen])

/-! ## VersionProbe: `get_edge_version` -/

/-- A `subprocess.run` invocation as configured by the source: argument
vector and the keyword options actually passed.  `timeout` is `none` when
no `timeout=` keyword is given (so `subprocess.run` waits indefinitely). -/
structure SubprocessRun where
  args : List String
  captureOutput : Bool
  text : Bool
  timeout : Option Nat
deriving Repr, DecidableEq

/-- The wmic metadata query of VersionProbe strategy 1 (main.py
lines 240-242): `subprocess.run(['wmic', 'datafile', 'where', wmic_query,
'get', 'Version', '/value'], capture_output=True, text=True)` — no
`timeout=` keyword is passed. -/
def wmicRun (wmicQuery : String) : SubprocessRun :=
  ⟨["wmic", "datafile", "where", wmicQuery, "get", "Version", "/value"],
    true, true, none⟩

/-- The registry query of VersionProbe strategy 2 (main.py lines 253-256):
`subprocess.run(['reg', 'query', 'HKEY_CURRENT_USER\\Software\\Microsoft\\Edge\\BLBeacon',
'/v', 'version'], capture_output=True, text=True)` — no `timeout=`
keyword is passed. -/
def regRun : SubprocessRun :=
  ⟨["reg", "query", "HKEY_CURRENT_USER\\Software\\Microsoft\\Edge\\BLBeacon",
    "/v", "version"], true, true, none⟩

/-- Environment of `get_edge_version` (main.py lines 222-309).  The first
three fields give the outcome of the three local strategies, already
post-processed the way the source post-processes them:
* `wmicMatch`: the `.strip()`ped group of `re.search(r'Version=(.+)', ...)`
  on the wmic output when the regex matched for some candidate Edge path
  (lines 230-247); `none` when no path existed, the regex did not match,
  or the strategy raised (caught at line 248).
* `regMatch`: likewise for the registry query's
  `version\s+REG_SZ\s+(.+)` match (lines 252-263).
* `fileVersion`: `data.get('product', {}).get('version', '')` from the
  `product_versions.json` manifest (lines 265-281) when the file was
  found and parsed; `none` when missing or raising.
* `wininet`: environment of the remote latest-stable download (line 289).
* `remoteContent`: content of the downloaded `edge_version.txt` when the
  download succeeded (line 290-291).
* `readRaises`: an exception while reading or removing the temp file
  (lines 290-292), caught at line 295. -/
structure VersionEnv where
  wmicMatch : Option String
  regMatch : Option String
  fileVersion : Option String
  wininet : WininetEnv
  remoteContent : String
  readRaises : Bool
deriving Repr, DecidableEq

/-- Result of `get_edge_version` together with its observable side
effects: the version string returned, whether strategy 4's temporary
artifact (`edge_version.txt` in the temp directory) still exists when the
function returns, and the transport primitives invoked. -/
structure ProbeOut where
  version : String
  artifactRemains : Bool
  calls : List TransportCall
deriving Repr, DecidableEq

/-- Python's `str.strip()`: remove leading and trailing whitespace. -/
def pyStrip (s : String) : String :=
  String.mk (((s.data.dropWhile Char.isWhitespace).reverse.dropWhile
    Char.isWhitespace).reverse)

/-- VersionProbe strategy 4, the remote latest-stable lookup (main.py
lines 286-296): download `LATEST_STABLE` to a temp file via
`download_file_with_wininet`; if the download reported success, read the
file, `os.remove` it, and return the stripped content.  Returns
`(version?, artifactRemains, calls)`.  The `os.remove` at line 292
executes only on the successful-download branch after a successful read;
when the download fails, any partially written temp file is left behind,
and when the read raises the artifact also remains (the exception is
caught at line 295). -/
def remoteLookup (env : VersionEnv) : Option String × Bool × List TransportCall :=
  match download_file_with_wininet env.wininet with
  | (ok, written, calls) =>
    if ok then
      if env.readRaises then (none, written, calls)
      else (some (pyStrip env.remoteContent), false, calls)
    else (none, written, calls)

/-- The hardcoded fallback version terminating VersionProbe's chain
(main.py lines 299 and 307). -/
def fallbackVersion : String := "136.0.3240.64"

/-- `get_edge_version()` (main.py lines 222-309).  Ordered chain:
1. wmic metadata query — returns the stripped match immediately
   (line 247), even when that string is empty;
2. registry query — likewise (line 261);
3. version-manifest file — returns only a non-empty value
   (`if edge_version:` at line 277);
4. remote latest-stable lookup — returns the stripped file content when
   download and read succeed (line 294), even when empty;
5. hardcoded fallback constant (lines 299-302). -/
def get_edge_version (env : VersionEnv) : ProbeOut :=
  match env.wmicMatch with
  | some v => ⟨v, false, []⟩
  | none =>
  match env.regMatch with
  | some v => ⟨v, false, []⟩
  | none =>
  if env.fileVersion.getD "" ≠ "" then
    ⟨env.fileVersion.getD "", false, []⟩
  else
    match remoteLookup env with
    | (some v, art, calls) => ⟨v, art, calls⟩
    | (none, art, calls) => ⟨fallbackVersion, art, calls⟩

/-! ## Filesystem trees and `os.walk`

`extract_zip_with_shell` and the reconciliation step of
`get_edge_driver_path` inspect a directory tree.  A `FsTree` is the content
of one directory: its files and its named subdirectories.  `os.walk`
yields, for the root and then for every subdirectory in depth-first
order, a **3-tuple** `(dirpath, dirnames, filenames)`. -/

/-- A directory: the names of its files and its subdirectories. -/
inductive FsTree where
  | mk (files : List String) (subdirs : List (String × FsTree))

/-- The file names directly in a directory. -/
def FsTree.files : FsTree → List String
  | FsTree.mk fs _ => fs

/-- The named subdirectories of a directory. -/
def FsTree.subdirs : FsTree → List (String × FsTree)
  | FsTree.mk _ s => s

/-- `os.path.join` on Windows. -/
def pathJoin (a b : String) : String := a ++ "\\" ++ b

mutual

/-- `os.walk(p)` over an existing directory `t`: the root's own triple
`(dirpath, dirnames, filenames)` first, then the triples of each
subdirectory, depth first.  For an existing directory the result is never
empty — the root triple is always yielded. -/
def osWalk (p : String) : FsTree → List (String × List String × List String)
  | FsTree.mk files subs => (p, subs.map Prod.fst, files) :: osWalkList p subs

/-- `os.walk` continued over a list of named subdirectories. -/
def osWalkList (p : String) : List (String × FsTree) →
    List (String × List String × List String)
  | [] => []
  | (n, t) :: rest => osWalk (pathJoin p n) t ++ osWalkList p rest

end

/-- Python's `str.lower()` on a filename (character-wise lowercasing; the
filenames involved are ASCII). -/
def lowerStr (s : String) : String := String.mk (s.data.map Char.toLower)

/-- Case-insensitive match against the payload filename, as in
`file.lower() == "msedgedriver.exe"` (main.py lines 148 and 374). -/
def payloadName (f : String) : Bool := lowerStr f == "msedgedriver.exe"

mutual

/-- Whether the payload file exists anywhere in the tree (top level or
any subdirectory, case-insensitively).  This is the property the
specification's recursive search is meant to decide. -/
def hasPayloadAnywhere : FsTree → Bool
  | FsTree.mk files subs => files.any payloadName || hasPayloadList subs

/-- `hasPayloadAnywhere` over a list of named subdirectories. -/
def hasPayloadList : List (String × FsTree) → Bool
  | [] => false
  | (_, t) :: rest => hasPayloadAnywhere t || hasPayloadList rest

end

/-- `os.path.exists(os.path.join(dir, "msedgedriver.exe"))` on the
case-insensitive Windows filesystem: the payload is present directly in
the directory (main.py lines 142-143 and 367). -/
def topHasPayload (t : FsTree) : Bool := t.files.any payloadName

/-- Python iterable unpacking of a 3-tuple into **two** targets, as
written in `for root, files in os.walk(...)` (main.py lines 146 and 372):
`os.walk` yields `(dirpath, dirnames, filenames)`, and unpacking a
3-tuple into two names raises `ValueError: too many values to unpack
(expected 2)` — unconditionally, whatever the tuple's components are. -/
def unpackPair3 {α β γ : Type} : α × β × γ → Except PyErr (α × β) :=
  fun _ => Except.error PyErr.valueError

/-- The fallback search loop of `extract_zip_with_shell` (main.py
lines 145-152): iterate over `os.walk(extract_path)`, unpacking each
yielded triple into `root, files` (which raises `ValueError`, see
`unpackPair3`); were the unpacking to succeed, the body would scan
`files` for a case-insensitive `msedgedriver.exe` match and stop at the
first hit. -/
def extractFindLoop : List (String × List String × List String) →
    Except PyErr Bool
  | [] => Except.ok false
  | entry :: rest =>
    match unpackPair3 entry with
    | Except.error e => Except.error e
    | Except.ok (_, files) =>
        if files.any payloadName then Except.ok true
        else extractFindLoop rest

/-- Environment of `extract_zip_with_shell`: whether
`shell.NameSpace(zip_path)` yields a usable folder object (main.py
lines 129-132), and the contents of the destination directory after the
`CopyHere` call returns (line 139). -/
structure ExtractEnv where
  zipAccessOk : Bool
  treeAfterCopy : FsTree

/-- `extract_zip_with_shell(zip_path, extract_path)` (main.py
lines 116-162).  After the `CopyHere` call: succeed immediately when
`msedgedriver.exe` is directly in the destination (lines 142-143);
otherwise run the fallback `os.walk` search (lines 145-152) — whose
triple-into-two unpacking raises `ValueError`, caught by the
function-level handler (line 160) which returns `False`. -/
def extract_zip_with_shell (extractPath : String) (env : ExtractEnv) : Bool :=
  if !env.zipAccessOk then false
  else if topHasPayload env.treeAfterCopy then true
  else
    match extractFindLoop (osWalk extractPath env.treeAfterCopy) with
    | Except.error _ => false
    | Except.ok true => true
    | Except.ok false => false

/-- The reconciliation walk of `get_edge_driver_path` (main.py
lines 372-379): iterate over `os.walk(base_path)`, unpacking each triple
into `root, files` (which raises `ValueError`, see `unpackPair3`); were
the unpacking to succeed, the body would, at the first case-insensitive
filename match, move the file to the canonical path when found elsewhere
and return the canonical path (modelling the move as succeeding; were the
move to fail, the originally found path would be returned). -/
def reconcileWalk (basePath : String) :
    List (String × List String × List String) → Except PyErr (Option String)
  | [] => Except.ok none
  | entry :: rest =>
    match unpackPair3 entry with
    | Except.error e => Except.error e
    | Except.ok (_, files) =>
        if files.any payloadName then
          Except.ok (some (pathJoin basePath "msedgedriver.exe"))
        else reconcileWalk basePath rest

/-- The Reconciling step of `get_edge_driver_path` (main.py
lines 366-382): if the payload is at the canonical path, return it
(lines 367-369); otherwise walk the extraction target tree (lines
372-379) — the walk raises `ValueError` — and if the walk finds nothing,
return `None` (lines 381-382). -/
def reconcileStep (basePath : String) (t : FsTree) : Except PyErr (Option String) :=
  if topHasPayload t then Except.ok (some (pathJoin basePath "msedgedriver.exe"))
  else reconcileWalk basePath (osWalk basePath t)

/-- The `except Exception` handler at main.py lines 384-386: any
exception raised inside the download/extract/reconcile block is caught
and converted to a `None` result. -/
def catchToNone (x : Except PyErr (Option String)) : Option String :=
  match x with
  | Except.error _ => none
  | Except.ok r => r

/-- The extraction destination used by the resolver: the directory of the
invoking script. -/
def appDir : String := "C:\\app"

/-- A destination-directory state in which the payload arrived inside the
archive's own subfolder rather than at the top level. -/
def subdirPayloadTree : FsTree :=
  FsTree.mk [] [("edgedriver_win64", FsTree.mk ["msedgedriver.exe"] [])]

/-- C3: `extract` does NOT report success when the payload is only in a
subdirectory of the destination.  On `subdirPayloadTree` the payload
exists in a subdirectory (so the claimed recursive search should succeed)
but the fallback search loop unpacks `os.walk`'s 3-tuples into two
variables, raising `ValueError`, so `extract_zip_with_shell` returns
failure. -/
theorem extract_subdir_payload_reports_failure :
    hasPayloadAnywhere subdirPayloadTree = true ∧
    extractFindLoop (osWalk appDir subdirPayloadTree) =
      Except.error PyErr.valueError ∧
    extract_zip_with_shell appDir ⟨true, subdirPayloadTree⟩ = false := by
  refine ⟨?_, ?_, ?_⟩
  · simp only [subdirPayloadTree, hasPayloadAnywhere, hasPayloadList]
    decide
  · simp [subdirPayloadTree, osWalk, extractFindLoop, unpackPair3]
  · simp [extract_zip_with_shell, subdirPayloadTree, topHasPayload, FsTree.files,
      osWalk, extractFindLoop, unpackPair3]

/-- A `base_path` state after a hypothetical successful extraction in
which the payload sits only in a subdirectory, not at the canonical
top-level location. -/
def subdirOnlyBaseTree : FsTree :=
  FsTree.mk ["edgedriver.zip"] [("edgedriver_win64", FsTree.mk ["msedgedriver.exe"] [])]

/-- C4: the Reconciling step does NOT move a payload found at a
non-canonical location.  On `subdirOnlyBaseTree` the payload exists in a
subdirectory of the extraction target, but the reconciliation walk
unpacks `os.walk`'s 3-tuples into two variables, raising `ValueError`;
the surrounding handler converts it to `None`, so `resolve()` reports
absence even though a payload exists in the tree. -/
theorem reconcile_subdir_payload_returns_none :
    hasPayloadAnywhere subdirOnlyBaseTree = true ∧
    reconcileStep appDir subdirOnlyBaseTree = Except.error PyErr.valueError ∧
    catchToNone (reconcileStep appDir subdirOnlyBaseTree) = none := by
  refine ⟨?_, ?_, ?_⟩
  · simp only [subdirOnlyBaseTree, hasPayloadAnywhere, hasPayloadList]
    decide
  · simp only [reconcileStep, subdirOnlyBaseTree, topHasPayload, FsTree.files]
    rw [if_neg (by decide)]
    simp [osWalk, reconcileWalk, unpackPair3]
  · simp only [catchToNone, reconcileStep, subdirOnlyBaseTree, topHasPayload,
      FsTree.files]
    rw [if_neg (by decide)]
    simp [osWalk, reconcileWalk, unpackPair3]

/-! ## DriverResolver: `get_edge_driver_path` and the entry point -/

/-- Environment of one `get_edge_driver_path()` execution (main.py
lines 311-396):
* `basePath`: `os.path.dirname(os.path.abspath(sys.argv[0]))` (line 315);
* `exeDir`: `os.path.dirname(sys.executable)` (line 324);
* `cacheHit1` / `cacheHit2`: whether `msedgedriver.exe` exists at the
  first / second candidate location (lines 320-325);
* `versionEnv`: environment of the `get_edge_version()` call (line 336);
* `mkdtempRaises`: whether `tempfile.mkdtemp()` raises (line 342) — the
  one statement of the acquisition phase outside the inner
  `try/except/finally`;
* `inet`, `writeRaises`: environment of the archive download via
  `download_file_inet_read` (line 350);
* `zipAccessOk`, `treeAfterCopy`: environment of the
  `extract_zip_with_shell(zip_path, base_path)` call (line 356) —
  `treeAfterCopy` is the content of `base_path` after the copy, also
  inspected by the Reconciling step (lines 366-382). -/
structure ResolverEnv where
  basePath : String
  exeDir : String
  cacheHit1 : Bool
  cacheHit2 : Bool
  versionEnv : VersionEnv
  mkdtempRaises : Bool
  inet : InetEnv
  writeRaises : Bool
  zipAccessOk : Bool
  treeAfterCopy : FsTree

/-- The canonical driver path of a resolution:
`os.path.join(base_path, "msedgedriver.exe")` (main.py line 317). -/
def driverPathOf (env : ResolverEnv) : String :=
  pathJoin env.basePath "msedgedriver.exe"

/-- Observable outcome of one `get_edge_driver_path()` execution: the
returned value, whether `get_edge_version` was invoked, the transport
primitives invoked (in order), whether the temporary workspace directory
was created (`tempfile.mkdtemp`, line 342) and whether it was removed
again before returning (`shutil.rmtree` in the `finally` block,
lines 387-392). -/
structure ResolveOutcome where
  result : Option String
  probeCalled : Bool
  calls : List TransportCall
  workspaceCreated : Bool
  workspaceRemoved : Bool
deriving Repr, DecidableEq

/-- The body of the inner `try` of `get_edge_driver_path` (main.py
lines 343-383): archive download via `download_file_inet_read` (failure
returns `None`, lines 350-352), extraction via `extract_zip_with_shell`
(failure returns `None`, lines 356-358), then the Reconciling step
`reconcileStep` (lines 366-382, which may raise). -/
def innerAcquire (env : ResolverEnv) : Except PyErr (Option String) :=
  if !(download_file_inet_read env.inet env.writeRaises).1 then
    Except.ok none
  else if !(extract_zip_with_shell env.basePath
      ⟨env.zipAccessOk, env.treeAfterCopy⟩) then
    Except.ok none
  else
    reconcileStep env.basePath env.treeAfterCopy

/-- `get_edge_driver_path()` up to its top-level exception handler
(main.py lines 313-392): an `Except.error` is an exception escaping to
the handler at line 394 (carrying the transport calls made so far).
Steps, in source order:
* CacheCheck (lines 320-330): return the first candidate path that
  exists, touching neither `get_edge_version` nor the network;
* version (lines 336-339): call `get_edge_version()`; a falsy (empty)
  version returns `None`;
* `tempfile.mkdtemp()` (line 342), whose failure propagates upward;
* the inner `try` (`innerAcquire`), whose exceptions are caught and
  converted to `None` (`catchToNone`, lines 384-386);
* the `finally` (lines 387-392): the workspace is removed on every exit
  path of the inner block. -/
def resolveRaw (env : ResolverEnv) :
    Except (PyErr × List TransportCall) ResolveOutcome :=
  if env.cacheHit1 then
    Except.ok ⟨some (driverPathOf env), false, [], false, false⟩
  else if env.cacheHit2 then
    Except.ok ⟨some (pathJoin env.exeDir "msedgedriver.exe"), false, [], false, false⟩
  else if (get_edge_version env.versionEnv).version = "" then
    Except.ok ⟨none, true, (get_edge_version env.versionEnv).calls, false, false⟩
  else if env.mkdtempRaises then
    Except.error (PyErr.osError, (get_edge_version env.versionEnv).calls)
  else
    Except.ok ⟨catchToNone (innerAcquire env), true,
      (get_edge_version env.versionEnv).calls ++ [TransportCall.inetRead], true, true⟩

/-- `get_edge_driver_path()` (main.py lines 311-396), including the
top-level handler (lines 394-396) that converts any escaped exception
into a `None` return. -/
def get_edge_driver_path (env : ResolverEnv) : ResolveOutcome :=
  match resolveRaw env with
  | Except.ok out => out
  | Except.error (_, calls) => ⟨none, true, calls, false, false⟩

/-- The `__main__` print contract (main.py lines 418-422): the resolved
path on success, a fixed failure message on absence. -/
def mainOutput (env : ResolverEnv) : String :=
  match (get_edge_driver_path env).result with
  | some p => "Edge driver is ready at: " ++ p
  | none => "Failed to set up Edge driver."

/-! ## Claim theorems about the resolver -/

/-- An empty directory. -/
def emptyTree : FsTree := FsTree.mk [] []

/-- A probe environment in which strategy 1 (wmic) succeeds. -/
def envLocalVersion : VersionEnv :=
  ⟨some "136.0.3240.64", none, none, ⟨false, false, false⟩, "", false⟩

/-- C1: if the payload pre-exists at any candidate canonical path, the
resolver returns the first matching path and performs no version
detection and no network or download work. -/
theorem cache_hit_short_circuits (env : ResolverEnv)
    (h : env.cacheHit1 = true ∨ env.cacheHit2 = true) :
    (get_edge_driver_path env).result =
      some (if env.cacheHit1 then driverPathOf env
            else pathJoin env.exeDir "msedgedriver.exe") ∧
    (get_edge_driver_path env).probeCalled = false ∧
    (get_edge_driver_path env).calls = [] ∧
    (get_edge_driver_path env).workspaceCreated = false := by
  cases hc1 : env.cacheHit1
  · have hc2 : env.cacheHit2 = true := by
      rcases h with h | h
      · rw [hc1] at h; exact absurd h (by simp)
      · exact h
    simp [get_edge_driver_path, resolveRaw, hc1, hc2]
  · simp [get_edge_driver_path, resolveRaw, hc1]

/-- A resolver environment whose first candidate path already holds the
driver. -/
def cacheHitEnv : ResolverEnv :=
  ⟨"C:\\app", "C:\\py", true, false, envLocalVersion, false,
    ⟨true, true, []⟩, false, true, emptyTree⟩

/-- Witness for C1: a concrete cache hit at the first candidate path. -/
theorem cache_hit_short_circuits_witness :
    (cacheHitEnv.cacheHit1 = true ∨ cacheHitEnv.cacheHit2 = true) ∧
    (get_edge_driver_path cacheHitEnv).result = some "C:\\app\\msedgedriver.exe" ∧
    (get_edge_driver_path cacheHitEnv).probeCalled = false ∧
    (get_edge_driver_path cacheHitEnv).calls = [] := by
  have h := cache_hit_short_circuits cacheHitEnv (Or.inl rfl)
  exact ⟨Or.inl rfl, by simpa [cacheHitEnv, driverPathOf, pathJoin] using h.1,
    h.2.1, h.2.2.1⟩

theorem workspaceRemoved_eq_created (env : ResolverEnv) :
    (get_edge_driver_path env).workspaceRemoved =
    (get_edge_driver_path env).workspaceCreated := by
  cases hr : resolveRaw env with
  | error e =>
      obtain ⟨e1, cs⟩ := e
      unfold get_edge_driver_path
      rw [hr]
  | ok out =>
      unfold get_edge_driver_path
      rw [hr]
      unfold resolveRaw at hr
      repeat' split at hr
      all_goals
        first
          | exact Except.noConfusion hr
          | (injection hr with h; subst h; rfl)

/-- C5: on every execution of the resolver in which the temporary
workspace directory was created, the `finally` block removes it again
before the function returns — on success, download failure, extraction
failure and exception alike. -/
theorem workspace_removed_whenever_created (env : ResolverEnv)
    (h : (get_edge_driver_path env).workspaceCreated = true) :
    (get_edge_driver_path env).workspaceRemoved = true := by
  rw [workspaceRemoved_eq_created]; exact h

/-- A resolver environment with a cache miss, a locally detected version
and a failing archive download. -/
def downloadFailEnv : ResolverEnv :=
  ⟨"C:\\app", "C:\\py", false, false, envLocalVersion, false,
    ⟨false, false, []⟩, false, true, emptyTree⟩

/-- Witness for C5: concrete run in which the workspace is created (the
archive download then fails) and is removed before returning. -/
theorem workspace_removed_whenever_created_witness :
    (get_edge_driver_path downloadFailEnv).workspaceCreated = true ∧
    (get_edge_driver_path downloadFailEnv).workspaceRemoved = true := by
  exact ⟨by decide, workspace_removed_whenever_created downloadFailEnv (by decide)⟩

/-- C7: no exception escaping to the resolver's top-level handler
propagates — it is converted to a `None` return — and the entry point
reports the outcome through its print contract: the resolved path on
success, a fixed failure message on absence. -/
theorem resolve_never_propagates (env : ResolverEnv) :
    (∀ e, resolveRaw env = Except.error e →
      (get_edge_driver_path env).result = none) ∧
    (∀ p, (get_edge_driver_path env).result = some p →
      mainOutput env = "Edge driver is ready at: " ++ p) ∧
    ((get_edge_driver_path env).result = none →
      mainOutput env = "Failed to set up Edge driver.") := by
  refine ⟨?_, ?_, ?_⟩
  · intro e he
    obtain ⟨e1, cs⟩ := e
    unfold get_edge_driver_path
    rw [he]
  · intro p hp
    unfold mainOutput
    rw [hp]
  · intro hn
    unfold mainOutput
    rw [hn]

/-- A resolver environment in which `tempfile.mkdtemp` raises. -/
def mkdtempRaiseEnv : ResolverEnv :=
  ⟨"C:\\app", "C:\\py", false, false, envLocalVersion, true,
    ⟨true, true, []⟩, false, true, emptyTree⟩

/-- Witness for C7: a concrete pipeline exception (`tempfile.mkdtemp`
raising) is caught and reported as the failure message. -/
theorem resolve_never_propagates_witness :
    resolveRaw mkdtempRaiseEnv = Except.error (PyErr.osError, []) ∧
    (get_edge_driver_path mkdtempRaiseEnv).result = none ∧
    mainOutput mkdtempRaiseEnv = "Failed to set up Edge driver." := by
  have h1 : resolveRaw mkdtempRaiseEnv = Except.error (PyErr.osError, []) := rfl
  have h2 := (resolve_never_propagates mkdtempRaiseEnv).1 _ h1
  exact ⟨h1, h2, (resolve_never_propagates mkdtempRaiseEnv).2.2 h2⟩

/-- A resolver environment with a cache miss, a locally detected version
and a total network outage (every transport primitive fails). -/
def networkOutageEnv : ResolverEnv :=
  ⟨"C:\\app", "C:\\py", false, false, envLocalVersion, false,
    ⟨false, false, []⟩, false, true, emptyTree⟩

/-- Counterexample to C2: on a cache miss with a version obtained and the
network down, the resolver's archive download attempts only the
single-shot `inet_read` primitive — the two-strategy chain
(`URLDownloadToFileW`, then `urllib`) is never invoked. -/
theorem resolve_download_two_strategy_cex :
    (get_edge_driver_path networkOutageEnv).result = none ∧
    (get_edge_driver_path networkOutageEnv).calls = [TransportCall.inetRead] ∧
    TransportCall.urlDownloadToFile ∉ (get_edge_driver_path networkOutageEnv).calls ∧
    TransportCall.urllibOpen ∉ (get_edge_driver_path networkOutageEnv).calls := by
  refine ⟨by decide, by decide, by decide, by decide⟩

/-- C2 as amended: the resolver downloads the driver archive with the
single-strategy `inet_read` primitive (`download_file_inet_read`); the
two-strategy wininet/urllib chain is not part of the archive download, so
when the download fails only that one transport strategy was attempted
and the resolver returns absence. -/
theorem resolve_download_uses_inet_read (env : ResolverEnv) (v : String)
    (h1 : env.cacheHit1 = false) (h2 : env.cacheHit2 = false)
    (h3 : env.versionEnv.wmicMatch = some v) (h4 : v ≠ "")
    (h5 : env.mkdtempRaises = false)
    (h6 : (download_file_inet_read env.inet env.writeRaises).1 = false) :
    (get_edge_driver_path env).result = none ∧
    (get_edge_driver_path env).calls = [TransportCall.inetRead] := by
  have hprobe : get_edge_version env.versionEnv = ⟨v, false, []⟩ := by
    unfold get_edge_version
    rw [h3]
  unfold get_edge_driver_path resolveRaw innerAcquire
  rw [hprobe, h1, h2, h5, h6]
  simp [h4, catchToNone]

/-- Witness for the amended C2 at the concrete outage environment. -/
theorem resolve_download_uses_inet_read_witness :
    (get_edge_driver_path networkOutageEnv).result = none ∧
    (get_edge_driver_path networkOutageEnv).calls = [TransportCall.inetRead] :=
  resolve_download_uses_inet_read networkOutageEnv "136.0.3240.64"
    rfl rfl rfl (by decide) rfl rfl

/-- A probe environment in which every local strategy fails and the
remote latest-stable lookup succeeds but delivers blank content. -/
def blankRemoteEnv : VersionEnv :=
  ⟨none, none, none, ⟨true, false, false⟩, "", false⟩

/-- A resolver environment whose version probe hits `blankRemoteEnv`. -/
def blankRemoteResolverEnv : ResolverEnv :=
  ⟨"C:\\app", "C:\\py", false, false, blankRemoteEnv, false,
    ⟨true, true, [ReadOutcome.chunk [1]]⟩, false, true, emptyTree⟩

/-- Counterexample to C6: when strategies 1-3 fail and the remote
latest-stable lookup succeeds with content that strips to the empty
string, `get_edge_version` returns the empty string (the hardcoded
constant does not terminate the chain), and the resolver's
no-version-determined absence branch is reached: `resolve()` returns
absence without creating the workspace. -/
theorem get_edge_version_empty_cex :
    (get_edge_version blankRemoteEnv).version = "" ∧
    (get_edge_driver_path blankRemoteResolverEnv).result = none ∧
    (get_edge_driver_path blankRemoteResolverEnv).probeCalled = true ∧
    (get_edge_driver_path blankRemoteResolverEnv).workspaceCreated = false := by
  refine ⟨by decide, by decide, by decide, by decide⟩

/-- C6 as amended: `get_edge_version` is total and returns the hardcoded
constant `"136.0.3240.64"` whenever every local strategy and the remote
lookup fail; but a remote lookup that succeeds with blank content returns
the empty string, so the resolver's no-version absence branch is
reachable (see the counterexample). -/
theorem get_edge_version_exhausted_fallback (env : VersionEnv)
    (h1 : env.wmicMatch = none) (h2 : env.regMatch = none)
    (h3 : env.fileVersion.getD "" = "")
    (h4 : (remoteLookup env).1 = none) :
    (get_edge_version env).version = fallbackVersion := by
  unfold get_edge_version
  rw [h1, h2]
  rcases hr : remoteLookup env with ⟨r, art, calls⟩
  rw [hr] at h4
  simp only at h4
  subst h4
  simp [h3, hr]

/-- A probe environment in which every strategy fails outright. -/
def allFailEnv : VersionEnv :=
  ⟨none, none, none, ⟨false, false, false⟩, "", false⟩

/-- Witness for the amended C6: with every strategy failing, the
hardcoded constant is returned. -/
theorem get_edge_version_exhausted_fallback_witness :
    (get_edge_version allFailEnv).version = fallbackVersion :=
  get_edge_version_exhausted_fallback allFailEnv rfl rfl rfl rfl

/-- Counterexample to C8: the wmic metadata query and the registry query
are invoked with no timeout at all (`subprocess.run` without a
`timeout=` keyword waits indefinitely), not with a bounded timeout. -/
theorem subprocess_no_timeout_cex :
    (wmicRun "name=\"C:\\\\Program Files (x86)\\\\Microsoft\\\\Edge\\\\Application\\\\msedge.exe\"").timeout = none ∧
    regRun.timeout = none :=
  ⟨rfl, rfl⟩

/-- C8 as amended: the wmic and registry subprocess invocations pass no
timeout (they may block indefinitely); an erroring strategy is caught and
the chain advances to the next strategy (here: wmic yields nothing, the
registry strategy's value is returned). -/
theorem subprocess_unbounded_chain_advances (q : String) (env : VersionEnv)
    (v : String) (h1 : env.wmicMatch = none) (h2 : env.regMatch = some v) :
    (wmicRun q).timeout = none ∧ regRun.timeout = none ∧
    (get_edge_version env).version = v := by
  refine ⟨rfl, rfl, ?_⟩
  unfold get_edge_version
  rw [h1, h2]

/-- A probe environment in which wmic fails and the registry query
succeeds. -/
def regOnlyEnv : VersionEnv :=
  ⟨none, some "137.0.0.1", none, ⟨false, false, false⟩, "", false⟩

/-- Witness for the amended C8 at a concrete environment. -/
theorem subprocess_unbounded_chain_advances_witness :
    (wmicRun "name=x").timeout = none ∧ regRun.timeout = none ∧
    (get_edge_version regOnlyEnv).version = "137.0.0.1" :=
  subprocess_unbounded_chain_advances "name=x" regOnlyEnv "137.0.0.1" rfl rfl

/-- A probe environment in which the remote lookup's download fails after
partially writing the temp artifact. -/
def partialRemoteEnv : VersionEnv :=
  ⟨none, none, none, ⟨false, false, true⟩, "", false⟩

/-- Counterexample to C9: when the remote latest-stable download fails
after partially writing `edge_version.txt`, strategy 4 does NOT delete
the artifact — `os.remove` is only reached on the success branch — so the
temp artifact survives the strategy. -/
theorem remote_artifact_not_deleted_cex :
    (get_edge_version partialRemoteEnv).version = fallbackVersion ∧
    (get_edge_version partialRemoteEnv).artifactRemains = true := by
  refine ⟨by decide, by decide⟩

/-- C9 as amended: strategy 4 deletes its temporary download artifact
only on its fully successful path — when the download succeeded and
reading the file did not raise; on a failed download any partially
written artifact remains (see the counterexample). -/
theorem remote_artifact_deleted_on_success (env : VersionEnv)
    (h1 : env.wmicMatch = none) (h2 : env.regMatch = none)
    (h3 : env.fileVersion.getD "" = "")
    (h4 : (download_file_with_wininet env.wininet).1 = true)
    (h5 : env.readRaises = false) :
    (get_edge_version env).artifactRemains = false := by
  unfold get_edge_version
  rw [h1, h2]
  rcases hd : download_file_with_wininet env.wininet with ⟨ok, written, calls⟩
  rw [hd] at h4
  simp only at h4
  subst h4
  simp [h3, remoteLookup, hd, h5]

/-- A probe environment in which the remote lookup fully succeeds. -/
def remoteOkEnv : VersionEnv :=
  ⟨none, none, none, ⟨true, false, false⟩, "137.0.0.1\n", false⟩

/-- Witness for the amended C9: a fully successful remote lookup leaves
no artifact behind and yields the stripped content. -/
theorem remote_artifact_deleted_on_success_witness :
    (get_edge_version remoteOkEnv).artifactRemains = false ∧
    (get_edge_version remoteOkEnv).version = "137.0.0.1" :=
  ⟨remote_artifact_deleted_on_success remoteOkEnv rfl rfl rfl rfl rfl,
    by decide⟩
